import Mathlib

/-!
Shallow embedding of the mysql terraform provider's database-resource logic
(files `mysql-provider/provider.go` and `mysql-provider/resource_db.go`) and
proofs of the specification claims about it.

Strings are modelled at the character level; all identifiers, keywords and
delimiters involved in the claims are ASCII, where Go's byte indices and
character indices agree.
-/

namespace MysqlProvider

/-- The backtick character, written by code point to keep sources readable. -/
def bqChar : Char := Char.ofNat 96

/-- Character-level model of Go `strings.NewReplacer("\x60", "\x60\x60").Replace`:
doubles every backtick and leaves every other character unchanged. -/
def escBq : List Char → List Char
  | [] => []
  | c :: rest => if c = bqChar then c :: c :: escBq rest else c :: escBq rest

/-- `quoteIdentifier` from provider.go: `fmt.Sprintf` of the escaped identifier
between backticks. -/
def quoteIdentifier (s : String) : String :=
  "\x60" ++ String.mk (escBq s.data) ++ "\x60"

/-- Specification-side description of identifier quoting: wrap the identifier
in backticks and double every embedded backtick character. -/
def specQuote (s : String) : String :=
  "\x60" ++ String.mk (s.data.flatMap (fun c => if c = bqChar then [c, c] else [c])) ++ "\x60"

/-- The constant `defCharSetKey` of resource_db.go. -/
def defCharSetKey : String := "CHARACTER SET "

/-- The constant `defaultCollateKey` of resource_db.go. -/
def defaultCollateKey : String := "COLLATE "

/-- The constant `unknownDatabaseErr` of resource_db.go. -/
def unknownDatabaseErr : Nat := 1049

/-- Terraform resource state as the SDK presents it to the resource functions:
the resource id plus the attribute map. -/
structure ResourceData where
  id : String
  attrs : List (String × String)
deriving DecidableEq, Repr

/-- Raw attribute lookup (first binding wins, as the SDK's field reader does). -/
def rdLookup (d : ResourceData) (k : String) : Option String :=
  (d.attrs.find? (fun p => p.fst == k)).map Prod.snd

/-- Go `d.Get(k).(string)`: the SDK returns nil for a key that is not in the
resource schema (no binding in the resolved state), and the string type
assertion then panics; `none` models that panic. -/
def rdGetString (d : ResourceData) (k : String) : Option String :=
  rdLookup d k

/-- The attribute keys declared by `ResourceDB()`'s schema in resource_db.go. -/
def resourceDBSchemaKeys : List String :=
  ["name", "default_charset", "default_collation"]

/-- Go `d.Set(k, v)`: the SDK stores a declared key and returns an ignored
`Invalid address to set` error for an undeclared one, dropping the value. -/
def rdSet (d : ResourceData) (k v : String) : ResourceData :=
  if k ∈ resourceDBSchemaKeys then { d with attrs := (k, v) :: d.attrs } else d

/-- `databaseSQLCMD` from resource_db.go: reads the `name`,
`default_character_set` and `default_collation` attributes and formats
`"%s DATABASE %s %s %s"`; `none` models the Go panic when a read key is not
in the schema. -/
def databaseSQLCMD (verb : String) (d : ResourceData) : Option String :=
  match rdGetString d "name" with
  | none => none
  | some name =>
    match rdGetString d "default_character_set" with
    | none => none
    | some defaultCharset =>
      match rdGetString d "default_collation" with
      | none => none
      | some defaultCollation =>
        let defaultCharsetClause :=
          if defaultCharset = "" then "" else defCharSetKey ++ quoteIdentifier defaultCharset
        let defaultCollationClause :=
          if defaultCollation = "" then "" else defaultCollateKey ++ quoteIdentifier defaultCollation
        some (verb ++ " DATABASE " ++ quoteIdentifier name ++ " "
          ++ defaultCharsetClause ++ " " ++ defaultCollationClause)

/-- A resource state carrying the three attribute keys `databaseSQLCMD` reads. -/
def mkDbData (name cs col : String) : ResourceData :=
  ⟨"", [("name", name), ("default_character_set", cs), ("default_collation", col)]⟩

/-- leadsL needle hay: needle is an initial run of hay (Go's prefix test used
by strings.Index). -/
def leadsL : List Char → List Char → Bool
  | [], _ => true
  | _ :: _, [] => false
  | a :: as, b :: bs => a == b && leadsL as bs

/-- Character-level model of Go strings.Index: position of the first
occurrence of the needle; `none` models Go's -1. -/
def idxOfL (needle : List Char) : List Char → Option Nat
  | [] => if leadsL needle [] then some 0 else none
  | c :: t => if leadsL needle (c :: t) then some 0 else (idxOfL needle t).map (· + 1)

/-- Go strings.Index on strings. -/
def strIndex (s sub : String) : Option Nat :=
  idxOfL sub.data s.data

/-- Go strings.Contains on strings. -/
def strContains (s sub : String) : Bool :=
  (strIndex s sub).isSome

/-- Character-level model of Go strings.IndexRune. -/
def charIdxL (c : Char) : List Char → Option Nat
  | [] => none
  | a :: t => if a = c then some 0 else (charIdxL c t).map (· + 1)

/-- `extractIdentAfter` from resource_db.go: the token after the first
occurrence of the keyword, up to the next space. `none` models the Go panic
when no space follows the occurrence (the code slices `remain[:-1]`); the
empty string is returned when the keyword is absent. -/
def extractIdentAfter (sql keyword : String) : Option String :=
  match strIndex sql keyword with
  | some i =>
    let remain := sql.data.drop (i + keyword.length)
    match charIdxL ' ' remain with
    | some j => some (String.mk (remain.take j))
    | none => none
  | none => some ""

/-- SQL-level errors as the resource code distinguishes them: a driver error
with a numeric code, database/sql's no-rows sentinel, or anything else. -/
inductive SqlErr where
  | mysqlErr (number : Nat) (message : String)
  | errNoRows
  | other (message : String)
deriving DecidableEq, Repr

/-- Go err.Error() text; the mysql driver formats `Error %d: %s`. -/
def SqlErr.text : SqlErr → String
  | .mysqlErr n m => "Error " ++ toString n ++ ": " ++ m
  | .errNoRows => "sql: no rows in result set"
  | .other m => m

/-- An error returned by a resource function: either a driver error value
passed through unchanged, or an error newly created with fmt.Errorf. -/
inductive GoErr where
  | sql (e : SqlErr)
  | msg (s : String)
deriving DecidableEq, Repr

/-- Result of a resource function call: a Go runtime panic, a nil return, or
an error return, together with the final resource state. -/
inductive Outcome where
  | panic
  | ok (d : ResourceData)
  | err (d : ResourceData) (e : GoErr)
deriving DecidableEq, Repr

/-- Modelled from the spec: lexicographic comparison of parsed version
segments, as the go-version library's GreaterThan used by ReadDb compares
them; the version helpers are not among the files under inspection. -/
def versionGT : List Nat → List Nat → Bool
  | [], [] => false
  | [], _ :: _ => false
  | a :: as, [] => decide (0 < a) || versionGT as []
  | a :: as, b :: bs => decide (b < a) || (a == b && versionGT as bs)

/-- The MySQL server as seen through the statements the resource code issues.
The two version fields are modelled from the spec: `mySQLServerVersion` and
`mySQLServerVersionString` are called by ReadDb but their source is not
among the files under inspection. -/
structure DbServer where
  exec : String → Except SqlErr Unit
  showCreate : String → Except SqlErr (String × String)
  serverVersion : Except SqlErr (List Nat)
  serverVersionString : Except SqlErr String
  collationRow : String → Except SqlErr String

/-- The three d.Set calls ending ReadDb followed by the nil return; the
charset write targets the key `default_character_set`, which the resource
schema does not declare, so the SDK drops it. -/
def readFinish (d : ResourceData) (name cs col : String) : Outcome :=
  Outcome.ok (rdSet (rdSet (rdSet d "name" name) "default_character_set" cs)
    "default_collation" col)

/-- ReadDb from resource_db.go over the server model. -/
def ReadDb (d : ResourceData) (srv : DbServer) : Outcome :=
  let name := d.id
  match srv.showCreate name with
  | .error e =>
    match e with
    | .mysqlErr n _ =>
      if n = unknownDatabaseErr then Outcome.ok { d with id := "" }
      else Outcome.err d (.msg ("Error during show create database: " ++ e.text))
    | _ => Outcome.err d (.msg ("Error during show create database: " ++ e.text))
  | .ok (_database, createSQL) =>
    match extractIdentAfter createSQL defCharSetKey with
    | none => Outcome.panic
    | some defaultCharset =>
      match extractIdentAfter createSQL defaultCollateKey with
      | none => Outcome.panic
      | some defaultCollation =>
        if defaultCollation = "" ∧ defaultCharset ≠ "" then
          match srv.serverVersion with
          | .error e => Outcome.err d (.sql e)
          | .ok currentVersion =>
            match srv.serverVersionString with
            | .error e => Outcome.err d (.sql e)
            | .ok serverVersionString =>
              let res :=
                if !(strContains serverVersionString "MariaDB")
                    && versionGT currentVersion [8, 0, 0] then
                  srv.collationRow defaultCharset
                else
                  srv.collationRow defaultCharset
              match res with
              | .error e =>
                if e = SqlErr.errNoRows then
                  Outcome.err d
                    (.msg ("Charset " ++ defaultCharset ++ " has no default collation"))
                else
                  Outcome.err d
                    (.msg ("Error getting default charset: " ++ e.text ++ ", " ++ defaultCharset))
              | .ok col => readFinish d name defaultCharset col
        else readFinish d name defaultCharset defaultCollation

/-- CreateDb from resource_db.go over the server model: build the statement,
execute it, set the id from the name attribute and delegate to ReadDb. -/
def CreateDb (d : ResourceData) (srv : DbServer) : Outcome :=
  match databaseSQLCMD "CREATE" d with
  | none => Outcome.panic
  | some sqlStatment =>
    match srv.exec sqlStatment with
    | .error e => Outcome.err d (.sql e)
    | .ok _ =>
      match rdGetString d "name" with
      | none => Outcome.panic
      | some nm => ReadDb { d with id := nm } srv

/-- The mysql_database resource state as Terraform resolves it for the C1
round trip: exactly the schema-declared attribute keys. -/
def c1Create : ResourceData :=
  ⟨"", [("name", "mydb"), ("default_charset", "utf8mb4"),
    ("default_collation", "utf8mb4_unicode_ci")]⟩

/-- A resolved state about to be refreshed, with stale charset/collation. -/
def c1Read : ResourceData :=
  ⟨"mydb", [("name", "mydb"), ("default_charset", "utf8"),
    ("default_collation", "utf8_general_ci")]⟩

/-- A server on which mydb exists with charset utf8mb4 and collation
utf8mb4_unicode_ci. -/
def c1Srv : DbServer where
  exec := fun _ => .ok ()
  showCreate := fun _ =>
    .ok ("mydb",
      "CREATE DATABASE \x60mydb\x60 /*!40100 DEFAULT CHARACTER SET utf8mb4 COLLATE utf8mb4_unicode_ci */")
  serverVersion := .ok [8, 0, 21]
  serverVersionString := .ok "8.0.21"
  collationRow := fun _ => .error .errNoRows

/-- The state ReadDb produces from c1Read on c1Srv. -/
def c1AfterRead : ResourceData :=
  ⟨"mydb", [("default_collation", "utf8mb4_unicode_ci"), ("name", "mydb"),
    ("name", "mydb"), ("default_charset", "utf8"),
    ("default_collation", "utf8_general_ci")]⟩

/-- A state whose id names a database that is gone. -/
def c5Data : ResourceData := ⟨"gone", [("name", "gone")]⟩

/-- A server that reports error 1049 for every SHOW CREATE DATABASE. -/
def c5Srv : DbServer where
  exec := fun _ => .ok ()
  showCreate := fun _ => .error (.mysqlErr 1049 "Unknown database: gone")
  serverVersion := .ok [5, 7, 33]
  serverVersionString := .ok "5.7.33"
  collationRow := fun _ => .error .errNoRows

/-- A server that fails every statement with a bare driver error. -/
def c6Srv : DbServer where
  exec := fun _ => .error (.other "boom")
  showCreate := fun _ => .error (.other "boom")
  serverVersion := .ok [5, 7, 33]
  serverVersionString := .ok "5.7.33"
  collationRow := fun _ => .error .errNoRows

/-- A state carrying the three keys databaseSQLCMD reads. -/
def c6Data : ResourceData := mkDbData "wdb" "utf8" "utf8_general_ci"

/-- A server whose SHOW CREATE DATABASE reply has a charset but no collation
and whose default-collation lookup returns no rows. -/
def c8Srv : DbServer where
  exec := fun _ => .ok ()
  showCreate := fun _ =>
    .ok ("mydb", "CREATE DATABASE \x60mydb\x60 /*!40100 DEFAULT CHARACTER SET utf8mb4 */")
  serverVersion := .ok [8, 0, 21]
  serverVersionString := .ok "8.0.21"
  collationRow := fun _ => .error .errNoRows

/-- Modelled from the spec: the SDK combinator resource.Retry used by
mySQLConnect, whose source is outside the files under inspection - the
callback runs once immediately and is retried while the configured timeout
has not elapsed, keeping the last callback error; time is abstracted to one
unit per attempt, so the fuel is the timeout in those units. -/
def retryAttempts (attempt : Nat → Option SqlErr) : Nat → Nat → Except SqlErr Unit
  | 0, i =>
    match attempt i with
    | none => Except.ok ()
    | some e => Except.error e
  | fuel + 1, i =>
    match attempt i with
    | none => Except.ok ()
    | some _ => retryAttempts attempt fuel (i + 1)

/-- mySQLConnect from provider.go over an abstract trace of open+ping
attempt outcomes: retries through the configured timeout and wraps the
retry error in a connection message; the ok case stands for the returned
pool handle. -/
def mySQLConnect (connectRetryTimeoutSec : Nat) (attempt : Nat → Option SqlErr) :
    Except String Unit :=
  match retryAttempts attempt connectRetryTimeoutSec 0 with
  | Except.ok _ => Except.ok ()
  | Except.error e => Except.error ("Could not connect to server: " ++ e.text)

/-- Modelled from the spec: the update operation of the mysql_database
resource builds its statement with the same databaseSQLCMD builder, passing
the verb ALTER instead of CREATE; UpdateDb is installed by ResourceDB but
its source is not among the files under inspection. -/
def updateSQLCMD (d : ResourceData) : Option String :=
  databaseSQLCMD "ALTER" d

/-- A value of Terraform's dynamic attribute type as a ValidateFunc
receives it: a string, or something that is not a string. -/
inductive TfValue where
  | str (s : String)
  | notStr
deriving DecidableEq, Repr

/-- The endpoint ValidateFunc from Provider in provider.go: appends its
error only when the type assertion to string fails. -/
def endpointValidate (v : TfValue) : List String :=
  match v with
  | .str _ => []
  | .notStr => ["Mysql endpoint url must not be an empty string"]

/-- providerConfigure's transport selection in provider.go: reads character
zero of the endpoint to pick unix over tcp; `none` models the Go
index-out-of-range panic on the empty string. -/
def endpointProto (endpoint : String) : Option String :=
  match endpoint.data with
  | [] => none
  | c :: _ => some (if c = '/' then "unix" else "tcp")

theorem escBq_eq_flatMap (l : List Char) :
    escBq l = l.flatMap (fun c => if c = bqChar then [c, c] else [c]) := by
  induction l with
  | nil => rfl
  | cons c rest ih =>
    by_cases h : c = bqChar <;> simp [escBq, h, ih]

theorem quoteIdentifier_eq_specQuote (s : String) : quoteIdentifier s = specQuote s := by
  simp [quoteIdentifier, specQuote, escBq_eq_flatMap]

/-- C2: for every name, charset and collation combination, the statement
produced by `databaseSQLCMD` wraps the database name in backticks with every
embedded backtick doubled, and likewise quotes the charset and collation
identifiers it includes. -/
theorem databaseSQLCMD_quotes_identifiers (verb name cs col : String) :
    databaseSQLCMD verb (mkDbData name cs col) =
      some (verb ++ " DATABASE " ++ specQuote name ++ " "
        ++ (if cs = "" then "" else defCharSetKey ++ specQuote cs) ++ " "
        ++ (if col = "" then "" else defaultCollateKey ++ specQuote col)) := by
  simp [databaseSQLCMD, rdGetString, rdLookup, mkDbData, List.find?,
    quoteIdentifier_eq_specQuote]

theorem charIdxL_eq_none_iff (c : Char) (l : List Char) :
    charIdxL c l = none ↔ c ∉ l := by
  induction l with
  | nil => simp [charIdxL]
  | cons a t ih =>
    by_cases h : a = c
    · simp [charIdxL, h]
    · simp only [charIdxL, if_neg h, Option.map_eq_none', ih, List.mem_cons]
      constructor
      · intro hn hc
        rcases hc with hc | hc
        · exact h hc.symm
        · exact hn hc
      · intro hn hc
        exact hn (Or.inr hc)

theorem charIdxL_eq_some_zero_iff (c : Char) (l : List Char) :
    charIdxL c l = some 0 ↔ l.head? = some c := by
  cases l with
  | nil => simp [charIdxL]
  | cons a t =>
    by_cases h : a = c
    · simp [charIdxL, h]
    · simp only [charIdxL, if_neg h, List.head?_cons, Option.some.injEq]
      constructor
      · intro hm
        rcases Option.map_eq_some'.mp hm with ⟨k, _, hk⟩
        exact absurd hk (Nat.succ_ne_zero k)
      · intro hm
        exact absurd hm h

theorem charIdxL_append_of_not_mem (c : Char) (l t : List Char) (h : c ∉ l) :
    charIdxL c (l ++ c :: t) = some l.length := by
  induction l with
  | nil => simp [charIdxL]
  | cons a l ih =>
    have ha : ¬(a = c) := by
      intro hh
      exact h (by rw [hh]; exact List.mem_cons_self c l)
    have hm : c ∉ l := fun hm => h (List.mem_cons_of_mem a hm)
    simp [charIdxL, ha, ih hm]

/-- Helper: a string built from a character list is empty iff the list is. -/
theorem mk_eq_empty_iff (l : List Char) : String.mk l = "" ↔ l = [] := by
  constructor
  · intro h
    exact congrArg String.data h
  · intro h
    rw [h]

/-- Extraction succeeds with the token when the keyword's first occurrence is
followed by a space-free token and then a space. -/
theorem extractIdentAfter_data (sql kw : String) (i : Nat) (tok rest : List Char)
    (h1 : strIndex sql kw = some i)
    (h2 : sql.data.drop (i + kw.length) = tok ++ ' ' :: rest)
    (h3 : ' ' ∉ tok) :
    extractIdentAfter sql kw = some (String.mk tok) := by
  simp only [extractIdentAfter, h1, h2,
    charIdxL_append_of_not_mem ' ' tok rest h3, List.take_left]

/-- C3 (amended): a SHOW CREATE DATABASE output of the displayed shape, in
which the shown occurrences of the two keywords are their first occurrences,
extracts exactly `utf8mb4` and `utf8mb4_unicode_ci`. -/
theorem extractIdentAfter_c3_amended (pre post : String)
    (h1 : strIndex (pre ++ "CHARACTER SET utf8mb4 COLLATE utf8mb4_unicode_ci " ++ post)
        defCharSetKey = some pre.length)
    (h2 : strIndex (pre ++ "CHARACTER SET utf8mb4 COLLATE utf8mb4_unicode_ci " ++ post)
        defaultCollateKey = some (pre.length + 22)) :
    extractIdentAfter (pre ++ "CHARACTER SET utf8mb4 COLLATE utf8mb4_unicode_ci " ++ post)
        defCharSetKey = some "utf8mb4"
    ∧ extractIdentAfter (pre ++ "CHARACTER SET utf8mb4 COLLATE utf8mb4_unicode_ci " ++ post)
        defaultCollateKey = some "utf8mb4_unicode_ci" := by
  have hd : (pre ++ "CHARACTER SET utf8mb4 COLLATE utf8mb4_unicode_ci " ++ post).data
      = pre.data ++ ("CHARACTER SET utf8mb4 COLLATE utf8mb4_unicode_ci ".data ++ post.data) := by
    simp [String.data_append]
  constructor
  · refine extractIdentAfter_data _ _ pre.length "utf8mb4".data
      ("COLLATE utf8mb4_unicode_ci ".data ++ post.data) h1 ?_ (by decide)
    rw [hd, show pre.length + defCharSetKey.length = pre.data.length + 14 from rfl,
      List.drop_append]
    rfl
  · refine extractIdentAfter_data _ _ (pre.length + 22) "utf8mb4_unicode_ci".data
      post.data h2 ?_ (by decide)
    rw [hd, show pre.length + 22 + defaultCollateKey.length = pre.data.length + 30 from rfl,
      List.drop_append]
    rfl

/-- C3 (counterexample): the output string that is exactly the quoted
substring contains it, yet the collation extraction hits the missing-space
panic path instead of yielding `utf8mb4_unicode_ci`. -/
theorem extractIdentAfter_c3_counterexample :
    strContains "CHARACTER SET utf8mb4 COLLATE utf8mb4_unicode_ci"
        "CHARACTER SET utf8mb4 COLLATE utf8mb4_unicode_ci" = true
    ∧ extractIdentAfter "CHARACTER SET utf8mb4 COLLATE utf8mb4_unicode_ci"
        defaultCollateKey ≠ some "utf8mb4_unicode_ci"
    ∧ extractIdentAfter "CHARACTER SET utf8mb4 COLLATE utf8mb4_unicode_ci"
        defaultCollateKey = none :=
  ⟨rfl, by decide, rfl⟩

/-- Witness for the amended C3 theorem at a concrete server reply. -/
theorem extractIdentAfter_c3_amended_witness :
    extractIdentAfter ("CREATE DATABASE X /* "
        ++ "CHARACTER SET utf8mb4 COLLATE utf8mb4_unicode_ci " ++ "*/")
      defCharSetKey = some "utf8mb4"
    ∧ extractIdentAfter ("CREATE DATABASE X /* "
        ++ "CHARACTER SET utf8mb4 COLLATE utf8mb4_unicode_ci " ++ "*/")
      defaultCollateKey = some "utf8mb4_unicode_ci" :=
  extractIdentAfter_c3_amended "CREATE DATABASE X /* " "*/" (by decide) (by decide)

/-- C4 (counterexample): the keyword occurs yet the empty token is returned,
because a second space immediately follows the keyword. -/
theorem extractIdentAfter_c4_counterexample :
    strContains "CHARACTER SET  x" defCharSetKey = true
    ∧ extractIdentAfter "CHARACTER SET  x" defCharSetKey = some "" :=
  ⟨rfl, rfl⟩

/-- C4 (amended): extraction panics exactly when the keyword occurs and no
space appears after the end of its first occurrence, and returns the empty
string exactly when the keyword is absent or the first character after its
first occurrence is a space. -/
theorem extractIdentAfter_amended_characterization (sql kw : String) :
    (extractIdentAfter sql kw = none ↔
      ∃ i, strIndex sql kw = some i ∧ ' ' ∉ sql.data.drop (i + kw.length))
    ∧ (extractIdentAfter sql kw = some "" ↔
      (strIndex sql kw = none ∨
        ∃ i, strIndex sql kw = some i ∧
          (sql.data.drop (i + kw.length)).head? = some ' ')) := by
  cases h : strIndex sql kw with
  | none =>
    constructor
    · simp [extractIdentAfter, h]
    · simp [extractIdentAfter, h]
  | some i =>
    cases hj : charIdxL ' ' (sql.data.drop (i + kw.length)) with
    | none =>
      constructor
      · simp only [extractIdentAfter, h, hj]
        constructor
        · intro _
          exact ⟨i, rfl, (charIdxL_eq_none_iff _ _).mp hj⟩
        · intro _
          trivial
      · simp only [extractIdentAfter, h, hj]
        constructor
        · intro hfalse
          exact absurd hfalse (by simp)
        · rintro (hix | ⟨i', hi', hhead⟩)
          · exact absurd hix (by simp)
          · rw [Option.some.injEq] at hi'
            subst hi'
            have : charIdxL ' ' (sql.data.drop (i + kw.length)) = some 0 :=
              (charIdxL_eq_some_zero_iff _ _).mpr hhead
            rw [hj] at this
            exact absurd this (by simp)
    | some j =>
      have hmem : ' ' ∈ sql.data.drop (i + kw.length) := by
        by_contra hm
        rw [(charIdxL_eq_none_iff _ _).mpr hm] at hj
        exact absurd hj (by simp)
      constructor
      · simp only [extractIdentAfter, h, hj]
        constructor
        · intro hfalse
          exact absurd hfalse (by simp)
        · rintro ⟨i', hi', hnm⟩
          rw [Option.some.injEq] at hi'
          subst hi'
          exact absurd hmem hnm
      · simp only [extractIdentAfter, h, hj, Option.some.injEq]
        rw [mk_eq_empty_iff]
        constructor
        · intro htake
          refine Or.inr ⟨i, rfl, ?_⟩
          rcases Nat.eq_zero_or_pos j with hz | hp
          · subst hz
            exact (charIdxL_eq_some_zero_iff _ _).mp hj
          · exfalso
            have hne : sql.data.drop (i + kw.length) ≠ [] := by
              intro hnil
              rw [hnil] at hj
              exact absurd hj (by simp [charIdxL])
            rcases List.exists_cons_of_ne_nil hne with ⟨a, t, hat⟩
            rw [hat] at htake
            rcases Nat.exists_eq_add_of_lt hp with ⟨k, hk⟩
            rw [hk, Nat.zero_add, List.take_succ_cons] at htake
            exact absurd htake (by simp)
        · rintro (hix | ⟨i', hi', hhead⟩)
          · exact absurd hix (by simp)
          · subst hi'
            have h0 : charIdxL ' ' (sql.data.drop (i + kw.length)) = some 0 :=
              (charIdxL_eq_some_zero_iff _ _).mpr hhead
            rw [hj, Option.some.injEq] at h0
            rw [h0]
            rfl

/-- C1 (code bug): with the schema-declared keys, CreateDb panics on every
server, because databaseSQLCMD reads the undeclared key
`default_character_set`; and ReadDb drops its parsed-charset write for the
same key mismatch, so the declared `default_charset` attribute keeps its
stale value instead of the server's utf8mb4. -/
theorem createDb_readDb_roundtrip_bug :
    (∀ srv : DbServer, CreateDb c1Create srv = Outcome.panic)
    ∧ ReadDb c1Read c1Srv = Outcome.ok c1AfterRead
    ∧ rdLookup c1AfterRead "default_charset" = some "utf8" :=
  ⟨fun _ => rfl, rfl, rfl⟩

/-- C5: a SHOW CREATE DATABASE failure with mysql error code 1049 clears the
resource id and returns nil; any other mysql error code leaves the id
untouched and returns an error. -/
theorem readDb_unknown_database (d : ResourceData) (srv : DbServer) (n : Nat) (m : String)
    (h : srv.showCreate d.id = Except.error (SqlErr.mysqlErr n m)) :
    (n = unknownDatabaseErr → ReadDb d srv = Outcome.ok { d with id := "" })
    ∧ (n ≠ unknownDatabaseErr →
      ReadDb d srv = Outcome.err d
        (GoErr.msg ("Error during show create database: " ++ (SqlErr.mysqlErr n m).text))) := by
  constructor
  · intro hn
    simp [ReadDb, h, hn]
  · intro hn
    simp [ReadDb, h, hn]

/-- Witness for C5 at a concrete unknown-database reply. -/
theorem readDb_unknown_database_witness :
    ReadDb c5Data c5Srv = Outcome.ok { c5Data with id := "" } :=
  (readDb_unknown_database c5Data c5Srv 1049 "Unknown database: gone" rfl).1 rfl

/-- C6 (counterexample): ReadDb does not surface the driver error value
verbatim; it returns a freshly created error with an added message. -/
theorem readDb_error_not_verbatim_counterexample :
    ReadDb c5Data c6Srv
        = Outcome.err c5Data (GoErr.msg "Error during show create database: boom")
    ∧ ReadDb c5Data c6Srv ≠ Outcome.err c5Data (GoErr.sql (SqlErr.other "boom")) :=
  ⟨rfl, by decide⟩

/-- C6 (amended): CreateDb returns a failed statement's driver error value
verbatim, while ReadDb wraps any non-1049 query error in an
`Error during show create database:` message; each issues its statement
exactly once. -/
theorem createDb_readDb_error_propagation (d : ResourceData) (srv : DbServer)
    (e : SqlErr) (stmt : String)
    (hcmd : databaseSQLCMD "CREATE" d = some stmt)
    (hexec : srv.exec stmt = Except.error e)
    (hread : srv.showCreate d.id = Except.error e)
    (hnot : ∀ m, e ≠ SqlErr.mysqlErr unknownDatabaseErr m) :
    CreateDb d srv = Outcome.err d (GoErr.sql e)
    ∧ ReadDb d srv = Outcome.err d
        (GoErr.msg ("Error during show create database: " ++ e.text)) := by
  constructor
  · simp [CreateDb, hcmd, hexec]
  · cases e with
    | mysqlErr n m =>
      have hn : n ≠ unknownDatabaseErr := by
        intro hh
        exact hnot m (by rw [hh])
      simp [ReadDb, hread, hn]
    | errNoRows => simp [ReadDb, hread]
    | other _ => simp [ReadDb, hread]

/-- Witness for the amended C6 theorem at a concrete failing server. -/
theorem createDb_readDb_error_propagation_witness :
    CreateDb c6Data c6Srv = Outcome.err c6Data (GoErr.sql (SqlErr.other "boom"))
    ∧ ReadDb c6Data c6Srv = Outcome.err c6Data
        (GoErr.msg ("Error during show create database: " ++ (SqlErr.other "boom").text)) :=
  createDb_readDb_error_propagation c6Data c6Srv (SqlErr.other "boom")
    "CREATE DATABASE \x60wdb\x60 CHARACTER SET \x60utf8\x60 COLLATE \x60utf8_general_ci\x60"
    rfl rfl rfl (fun _ h => SqlErr.noConfusion h)

/-- C8: when the parsed collation is empty but a charset was found, a
no-rows default-collation lookup makes ReadDb fail with an error naming the
charset, and a nil return requires the lookup to have produced a row. -/
theorem readDb_missing_default_collation (d : ResourceData) (srv : DbServer)
    (dbn createSQL cs : String) (v : List Nat) (vs : String)
    (h1 : srv.showCreate d.id = Except.ok (dbn, createSQL))
    (h2 : extractIdentAfter createSQL defCharSetKey = some cs)
    (h3 : extractIdentAfter createSQL defaultCollateKey = some "")
    (h4 : cs ≠ "")
    (h5 : srv.serverVersion = Except.ok v)
    (h6 : srv.serverVersionString = Except.ok vs) :
    (srv.collationRow cs = Except.error SqlErr.errNoRows →
      ReadDb d srv = Outcome.err d
        (GoErr.msg ("Charset " ++ cs ++ " has no default collation")))
    ∧ (∀ d2, ReadDb d srv = Outcome.ok d2 →
      ∃ col, srv.collationRow cs = Except.ok col) := by
  constructor
  · intro hrow
    simp [ReadDb, h1, h2, h3, h4, h5, h6, hrow]
  · intro d2 hok
    cases hrow : srv.collationRow cs with
    | ok col => exact ⟨col, rfl⟩
    | error e =>
      exfalso
      by_cases he : e = SqlErr.errNoRows
      · rw [he] at hrow
        simp [ReadDb, h1, h2, h3, h4, h5, h6, hrow] at hok
      · simp [ReadDb, h1, h2, h3, h4, h5, h6, hrow, he] at hok

/-- Witness for C8 at a concrete no-rows lookup. -/
theorem readDb_missing_default_collation_witness :
    ReadDb c5Data c8Srv = Outcome.err c5Data
      (GoErr.msg ("Charset " ++ "utf8mb4" ++ " has no default collation")) :=
  (readDb_missing_default_collation c5Data c8Srv "mydb"
    "CREATE DATABASE \x60mydb\x60 /*!40100 DEFAULT CHARACTER SET utf8mb4 */"
    "utf8mb4" [8, 0, 21] "8.0.21" rfl rfl rfl (by decide) rfl rfl).1 rfl

theorem retryAttempts_all_fail (attempt : Nat → Option SqlErr) (e : Nat → SqlErr) :
    ∀ fuel i, (∀ j, i ≤ j → j ≤ i + fuel → attempt j = some (e j)) →
      retryAttempts attempt fuel i = Except.error (e (i + fuel)) := by
  intro fuel
  induction fuel with
  | zero =>
    intro i h
    simp [retryAttempts, h i (Nat.le_refl i) (Nat.le_refl i)]
  | succ f ih =>
    intro i h
    have h0 : attempt i = some (e i) := h i (Nat.le_refl i) (Nat.le_add_right i (f + 1))
    have hrec := ih (i + 1) (fun j hj1 hj2 => h j (by omega) (by omega))
    have harith : i + 1 + f = i + (f + 1) := by omega
    rw [harith] at hrec
    simp [retryAttempts, h0, hrec]

theorem retryAttempts_congr (a b : Nat → Option SqlErr) :
    ∀ fuel i, (∀ j, i ≤ j → j ≤ i + fuel → a j = b j) →
      retryAttempts a fuel i = retryAttempts b fuel i := by
  intro fuel
  induction fuel with
  | zero =>
    intro i h
    simp [retryAttempts, h i (Nat.le_refl i) (Nat.le_refl i)]
  | succ f ih =>
    intro i h
    have h0 : a i = b i := h i (Nat.le_refl i) (Nat.le_add_right i (f + 1))
    have hrec := ih (i + 1) (fun j hj1 hj2 => h j (by omega) (by omega))
    simp [retryAttempts, h0, hrec]

/-- C7: the connector consults the very first attempt even with a zero
timeout; a trace failing through the whole timeout yields no handle and an
error naming the last failure cause; and no attempt beyond the timeout is
ever consulted. -/
theorem mySQLConnect_retry (timeoutSec : Nat) (attempt : Nat → Option SqlErr) :
    (attempt 0 = none → mySQLConnect timeoutSec attempt = Except.ok ())
    ∧ (∀ e : Nat → SqlErr, (∀ i, i ≤ timeoutSec → attempt i = some (e i)) →
      mySQLConnect timeoutSec attempt
        = Except.error ("Could not connect to server: " ++ (e timeoutSec).text))
    ∧ (∀ attempt2 : Nat → Option SqlErr, (∀ i, i ≤ timeoutSec → attempt i = attempt2 i) →
      mySQLConnect timeoutSec attempt = mySQLConnect timeoutSec attempt2) := by
  refine ⟨?_, ?_, ?_⟩
  · intro h0
    cases timeoutSec with
    | zero => simp [mySQLConnect, retryAttempts, h0]
    | succ f => simp [mySQLConnect, retryAttempts, h0]
  · intro e he
    have hall := retryAttempts_all_fail attempt e timeoutSec 0
      (fun j hj1 hj2 => he j (by omega))
    simp only [Nat.zero_add] at hall
    simp [mySQLConnect, hall]
  · intro a2 ha
    have hco := retryAttempts_congr attempt a2 timeoutSec 0
      (fun j hj1 hj2 => ha j (by omega))
    simp [mySQLConnect, hco]

/-- Witness for C7: a permanently failing trace exhausts a two-unit timeout
and surfaces the last cause. -/
theorem mySQLConnect_retry_witness :
    mySQLConnect 2 (fun _ => some (SqlErr.other "dial tcp: connection refused"))
      = Except.error ("Could not connect to server: "
          ++ (SqlErr.other "dial tcp: connection refused").text) :=
  (mySQLConnect_retry 2 (fun _ => some (SqlErr.other "dial tcp: connection refused"))).2.1
    (fun _ => SqlErr.other "dial tcp: connection refused") (fun _ _ => rfl)

/-- Helper: a string built from a list of characters has that list as data. -/
theorem data_mk (l : List Char) : (String.mk l).data = l := rfl

/-- Helper: dropping the six characters of CREATE from a prefixed list. -/
theorem drop_six_create (l : List Char) : List.drop 6 ("CREATE".data ++ l) = l := rfl

/-- C9: for every resource state on which the create statement builds, the
update statement is the create statement with the leading verb replaced. -/
theorem updateSQLCMD_replaces_verb (d : ResourceData) (s : String)
    (h : databaseSQLCMD "CREATE" d = some s) :
    updateSQLCMD d = some ("ALTER" ++ String.mk (s.data.drop 6)) := by
  cases hn : rdGetString d "name" with
  | none => rw [databaseSQLCMD, hn] at h; exact absurd h (by simp)
  | some name =>
    cases hc : rdGetString d "default_character_set" with
    | none => rw [databaseSQLCMD, hn, hc] at h; exact absurd h (by simp)
    | some cs =>
      cases hl : rdGetString d "default_collation" with
      | none => rw [databaseSQLCMD, hn, hc, hl] at h; exact absurd h (by simp)
      | some col =>
        rw [databaseSQLCMD, hn, hc, hl, Option.some.injEq] at h
        rw [updateSQLCMD, databaseSQLCMD, hn, hc, hl]
        subst h
        refine congrArg some (String.ext ?_)
        simp [String.data_append, data_mk, drop_six_create]

/-- Witness for C9 at concrete attribute values. -/
theorem updateSQLCMD_replaces_verb_witness :
    updateSQLCMD c6Data = some ("ALTER" ++ String.mk
      (("CREATE DATABASE \x60wdb\x60 CHARACTER SET \x60utf8\x60 COLLATE \x60utf8_general_ci\x60" : String).data.drop 6)) :=
  updateSQLCMD_replaces_verb c6Data
    "CREATE DATABASE \x60wdb\x60 CHARACTER SET \x60utf8\x60 COLLATE \x60utf8_general_ci\x60"
    rfl

/-- C10: the endpoint validator accepts every string, the empty one
included, and rejects only non-strings, while the transport choice panics
on the empty endpoint instead of failing validation; non-empty endpoints
pick unix exactly when they start with a slash. -/
theorem providerConfigure_empty_endpoint_panics :
    (∀ s, endpointValidate (TfValue.str s) = [])
    ∧ endpointValidate TfValue.notStr ≠ []
    ∧ endpointProto "" = none
    ∧ endpointProto "/var/run/mysqld.sock" = some "unix"
    ∧ endpointProto "localhost:3306" = some "tcp" :=
  ⟨fun _ => rfl, by decide, rfl, rfl, rfl⟩

end MysqlProvider
